import Mathlib

/-!
# Verification of the synthetic marketplace data generators

A shallow embedding of the user-profile generator (`users.py`) and the
funnel event-log generator (`events.py`) of the synthetic C2C-marketplace
data repository, together with proofs of the specified properties.

Modelling conventions:
* The single seeded pseudo-random stream (`np.random` after `np.random.seed(seed)`)
  is a tape of natural-number draws; each primitive consumes the head of the tape.
  The same seed always yields the same tape.
* `uuid.uuid4()` draws from OS entropy, which the seed does not control; those
  draws come from a separate tape, and the opaque identifier strings are modelled
  by the drawn numbers.
* Python's built-in `hash` is an unspecified but fixed function within one run;
  it is a parameter of the embedding.
* Timestamps are seconds (integers); calendar dates are day numbers (integers).
* Floating-point probabilities are modelled as rationals; every constant of the
  source is exactly representable and no comparison in the source is close
  enough to a binary-rounding boundary to change a branch.
-/

/-- An infinite tape of pseudo-random natural-number draws. -/
abbrev Tape := Nat → Nat

/-- Drop the first draw of a tape. -/
def tl (t : Tape) : Tape := fun n => t (n + 1)

/-- Model of `np.random.randint(lo, hi)`: a draw in `[lo, hi)`, minimum inclusive and
maximum exclusive, taken from the head of the tape. -/
def randint (lo hi : Int) (t : Tape) : Int × Tape :=
  (lo + (t 0 : Int) % (hi - lo), tl t)

/-- Model of `np.random.random()`: a draw in `[0, 1)` (53-bit uniform), as a rational. -/
def randUnit (t : Tape) : ℚ × Tape :=
  (((t 0 % 2 ^ 53 : ℕ) : ℚ) / 2 ^ 53, tl t)

/-- A/B test group of a user (`'control'`, `'treatment'`, `'none'`). -/
inductive ABGroup where
  | control
  | treatment
  | none
deriving DecidableEq, Repr

/-- The five funnel event types, in funnel order. -/
inductive EventType where
  | page_view
  | search
  | item_view
  | chat_click
  | chat_send
deriving DecidableEq, Repr

/-- The list `EventGenerator.EVENT_TYPES`: the ordered funnel stage list. -/
def EVENT_TYPES : List EventType :=
  [EventType.page_view, EventType.search, EventType.item_view,
   EventType.chat_click, EventType.chat_send]

/-- The four funnel stage transitions keyed in `EventGenerator.FUNNEL_RATES`. -/
inductive Stage where
  | page_view_to_search
  | search_to_item_view
  | item_view_to_chat_click
  | chat_click_to_chat_send
deriving DecidableEq, Repr

/-- The table `EventGenerator.FUNNEL_RATES`: baseline funnel conversion rates. -/
def FUNNEL_RATES : Stage → ℚ
  | Stage.page_view_to_search => 60 / 100
  | Stage.search_to_item_view => 75 / 100
  | Stage.item_view_to_chat_click => 25 / 100
  | Stage.chat_click_to_chat_send => 80 / 100

/-- The `segment_multiplier` dictionary of `generate_user_session`, looked up
with `.get(user_segment, 1.0)`: any unknown segment maps to `1.0`. -/
def segment_multiplier (user_segment : String) : ℚ :=
  if user_segment = "high_engagement" then 13 / 10
  else if user_segment = "medium_engagement" then 1
  else if user_segment = "low_engagement" then 7 / 10
  else 1

/-- Model of `treatment_boost = 1.4 if ab_group == 'treatment' else 1.0`. -/
def treatment_boost (ab_group : ABGroup) : ℚ :=
  if ab_group = ABGroup.treatment then 14 / 10 else 1

/-- The composed probability actually compared against `np.random.random()` in
`generate_user_session`: baseline rate times segment multiplier, and for the
`item_view → chat_click` stage additionally times the treatment boost.
No clamping is applied. -/
def composed_rate (s : Stage) (user_segment : String) (ab_group : ABGroup) : ℚ :=
  FUNNEL_RATES s * segment_multiplier user_segment *
    (if s = Stage.item_view_to_chat_click then treatment_boost ab_group else 1)

/-- Model of `EventGenerator.assign_ab_group`: reduce `hash(user_id)` modulo 100
(Python `%` on a positive modulus is Euclidean, hence the result is in
`[0, 100)`); `[0,20) → control`, `[20,40) → treatment`, else `none`.
`pyhash` is the run's fixed string hash; user identifiers are modelled
by the entropy numbers behind their `uuid4` strings. -/
def assign_ab_group (pyhash : Nat → Int) (user_id : Nat) : ABGroup :=
  let hash_val := pyhash user_id
  let mod_val := hash_val % 100
  if mod_val < 20 then ABGroup.control
  else if mod_val < 40 then ABGroup.treatment
  else ABGroup.none

/-- One event row, as built by `EventGenerator._create_event` plus the
`extra_data` fields that event types may carry. -/
structure Event where
  event_id : Nat
  user_id : Nat
  session_id : Nat
  event_type : EventType
  event_timestamp : Int
  ab_group : ABGroup
  search_query : Option String
  item_id : Option Nat
  message_length : Option Int
deriving DecidableEq, Repr

/-- The fixed search-query vocabulary of `_generate_search_query`. -/
def queries : List String :=
  ["아이폰", "노트북", "자전거", "책상", "의자", "냉장고", "세탁기",
   "에어컨", "선풍기", "전자레인지", "청소기", "운동화", "패딩",
   "가방", "시계", "카메라", "게임기", "모니터", "키보드", "마우스"]

/-- Model of `np.random.choice(queries)`: pick one query using the head of the tape. -/
def choice_query (t : Tape) : String × Tape :=
  (queries.getD (t 0 % queries.length) "", tl t)

/-- Model of `EventGenerator.generate_user_session`: simulate one session.
`t` is the seeded pseudo-random tape, `u` the `uuid4` entropy tape; both are
returned advanced past the draws the session consumed. -/
def generate_user_session (user_id : Nat) (user_segment : String)
    (session_start : Int) (ab_group : ABGroup) (t u : Tape) :
    List Event × Tape × Tape :=
  let session_id := u 0
  let u := tl u
  let e1 : Event :=
    { event_id := u 0, user_id := user_id, session_id := session_id,
      event_type := EventType.page_view, event_timestamp := session_start,
      ab_group := ab_group, search_query := Option.none,
      item_id := Option.none, message_length := Option.none }
  let u := tl u
  let time1 := session_start + (randint 5 30 t).1
  let t := (randint 5 30 t).2
  let r1 := (randUnit t).1
  let t := (randUnit t).2
  if r1 < composed_rate Stage.page_view_to_search user_segment ab_group then
    let q := (choice_query t).1
    let t := (choice_query t).2
    let e2 : Event :=
      { e1 with event_id := u 0, event_type := EventType.search,
                event_timestamp := time1, search_query := some q }
    let u := tl u
    let time2 := time1 + (randint 3 15 t).1
    let t := (randint 3 15 t).2
    let r2 := (randUnit t).1
    let t := (randUnit t).2
    if r2 < composed_rate Stage.search_to_item_view user_segment ab_group then
      let item_id := u 0
      let u := tl u
      let e3 : Event :=
        { e1 with event_id := u 0, event_type := EventType.item_view,
                  event_timestamp := time2, item_id := some item_id }
      let u := tl u
      let time3 := time2 + (randint 10 60 t).1
      let t := (randint 10 60 t).2
      let r3 := (randUnit t).1
      let t := (randUnit t).2
      if r3 < composed_rate Stage.item_view_to_chat_click user_segment ab_group then
        let e4 : Event :=
          { e1 with event_id := u 0, event_type := EventType.chat_click,
                    event_timestamp := time3, item_id := some item_id }
        let u := tl u
        let time4 := time3 + (randint 2 10 t).1
        let t := (randint 2 10 t).2
        let r4 := (randUnit t).1
        let t := (randUnit t).2
        if r4 < composed_rate Stage.chat_click_to_chat_send user_segment ab_group then
          let msg_len := (randint 10 200 t).1
          let t := (randint 10 200 t).2
          let e5 : Event :=
            { e1 with event_id := u 0, event_type := EventType.chat_send,
                      event_timestamp := time4, item_id := some item_id,
                      message_length := some msg_len }
          let u := tl u
          ([e1, e2, e3, e4, e5], t, u)
        else ([e1, e2, e3, e4], t, u)
      else ([e1, e2, e3], t, u)
    else ([e1, e2], t, u)
  else ([e1], t, u)

/-- C1: every session returned by `generate_user_session` is a prefix of the
ordered stage list `{page_view, search, item_view, chat_click, chat_send}`
(so each stage appears only after its immediate predecessor), and the
timestamps of its events are strictly increasing. -/
theorem generate_user_session_funnel_order (user_id : Nat) (user_segment : String)
    (session_start : Int) (ab_group : ABGroup) (t u : Tape) :
    (∃ rest, ((generate_user_session user_id user_segment session_start ab_group t u).1.map
        Event.event_type) ++ rest = EVENT_TYPES) ∧
      ((generate_user_session user_id user_segment session_start ab_group t u).1.map
        Event.event_timestamp).Pairwise (· < ·) := by
  unfold generate_user_session
  dsimp only
  split_ifs <;>
    refine ⟨⟨_, rfl⟩, List.chain'_iff_pairwise.mp ?_⟩ <;>
    simp only [randint, tl, List.map_cons, List.map_nil, List.chain'_cons,
      List.chain'_singleton, List.chain'_nil, and_true] <;>
    omega

/-- C8: within any session produced by `generate_user_session`, a `chat_send`
event never appears without a `chat_click` event, and every `chat_click` or
`chat_send` event carries the same item identifier as the session's
`item_view` event. -/
theorem generate_user_session_chat_item_consistency (user_id : Nat)
    (user_segment : String) (session_start : Int) (ab_group : ABGroup)
    (t u : Tape) :
    ((∃ e ∈ (generate_user_session user_id user_segment session_start ab_group t u).1,
        e.event_type = EventType.chat_send) →
      ∃ e ∈ (generate_user_session user_id user_segment session_start ab_group t u).1,
        e.event_type = EventType.chat_click) ∧
    (∀ e₁ ∈ (generate_user_session user_id user_segment session_start ab_group t u).1,
      ∀ e₂ ∈ (generate_user_session user_id user_segment session_start ab_group t u).1,
        e₁.event_type = EventType.item_view →
        (e₂.event_type = EventType.chat_click ∨ e₂.event_type = EventType.chat_send) →
        e₂.item_id = e₁.item_id) := by
  unfold generate_user_session
  dsimp only
  split_ifs <;> constructor <;> simp

/-- The three segment-multiplier values, keyed by whether the segment string is
the high-engagement one (used to isolate the only composition that exceeds 1). -/
theorem segment_multiplier_values (seg : String) :
    (segment_multiplier seg = 13 / 10 ∧ seg = "high_engagement") ∨
    segment_multiplier seg = 1 ∨ segment_multiplier seg = 7 / 10 := by
  unfold segment_multiplier
  split_ifs with h1 h2 h3
  · exact Or.inl ⟨rfl, h1⟩
  · exact Or.inr (Or.inl rfl)
  · exact Or.inr (Or.inr rfl)
  · exact Or.inr (Or.inl rfl)

/-- C3 counterexample: the composed `chat_click → chat_send` probability for a
high-engagement user is `0.8 × 1.3 = 1.04 > 1`, and `generate_user_session`
samples against this unclamped value. -/
theorem composed_rate_exceeds_one :
    1 < composed_rate Stage.chat_click_to_chat_send "high_engagement" ABGroup.control := by
  simp only [composed_rate, FUNNEL_RATES, segment_multiplier, treatment_boost]
  simp
  norm_num

/-- C3 (amended): every composed stage probability used by
`generate_user_session` is nonnegative and at most 1, except the
`chat_click → chat_send` rate for the `high_engagement` segment, which equals
`26/25 = 1.04`; no clamping is applied anywhere. -/
theorem composed_rate_bounds (s : Stage) (seg : String) (g : ABGroup) :
    0 ≤ composed_rate s seg g ∧
    (composed_rate s seg g ≤ 1 ∨
      (s = Stage.chat_click_to_chat_send ∧ seg = "high_engagement")) ∧
    composed_rate Stage.chat_click_to_chat_send "high_engagement" g = 26 / 25 := by
  have hb : treatment_boost g = 1 ∨ treatment_boost g = 14 / 10 := by
    unfold treatment_boost
    split_ifs <;> simp
  have hcs : composed_rate Stage.chat_click_to_chat_send "high_engagement" g = 26 / 25 := by
    simp only [composed_rate, FUNNEL_RATES, segment_multiplier, treatment_boost]
    simp
    norm_num
  refine ⟨?_, ?_, hcs⟩
  · rcases segment_multiplier_values seg with ⟨hm, _⟩ | hm | hm <;>
      rcases hb with hb | hb <;>
      cases s <;>
      simp only [composed_rate, FUNNEL_RATES] <;> simp [hm, hb] <;> norm_num
  · rcases segment_multiplier_values seg with ⟨hm, hs⟩ | hm | hm <;>
      rcases hb with hb | hb <;>
      cases s <;>
      first
        | exact Or.inr ⟨rfl, hs⟩
        | (refine Or.inl ?_
           simp only [composed_rate, FUNNEL_RATES]
           simp [hm, hb]
           norm_num)

/-- C4: `assign_ab_group` is a pure, stable function of the identifier: the
hash is reduced modulo 100 into `[0, 100)`, values in `[0,20)` give `control`,
`[20,40)` give `treatment`, `[40,100)` give `none`, and repeated calls agree. -/
theorem assign_ab_group_spec (pyhash : Nat → Int) (user_id : Nat) :
    0 ≤ pyhash user_id % 100 ∧ pyhash user_id % 100 < 100 ∧
    (assign_ab_group pyhash user_id = ABGroup.control ↔ pyhash user_id % 100 < 20) ∧
    (assign_ab_group pyhash user_id = ABGroup.treatment ↔
      (20 ≤ pyhash user_id % 100 ∧ pyhash user_id % 100 < 40)) ∧
    (assign_ab_group pyhash user_id = ABGroup.none ↔ 40 ≤ pyhash user_id % 100) ∧
    assign_ab_group pyhash user_id = assign_ab_group pyhash user_id := by
  have h0 : (0 : Int) ≤ pyhash user_id % 100 := Int.emod_nonneg _ (by norm_num)
  have h1 : pyhash user_id % 100 < 100 := Int.emod_lt_of_pos _ (by norm_num)
  refine ⟨h0, h1, ?_, ?_, ?_, rfl⟩ <;>
    unfold assign_ab_group <;> dsimp only <;> split_ifs <;> simp_all <;> omega

/-- One generated user row (`users.py`). Opaque strings produced by `uuid4`
and Faker are modelled by the numbers drawn from their tapes. -/
structure UserRec where
  user_id : Nat
  name : Nat
  location : Nat
  join_date : Int
  verified_neighborhood : Bool
  created_at : Int
  age_group : String
  device_type : String
  user_segment : Option String
deriving DecidableEq, Repr

/-- The fixed age-group vocabulary of `generate_users`. -/
def AGE_GROUPS : List String := ["18-24", "25-34", "35-44", "45-54", "55+"]

/-- The fixed device-type vocabulary of `generate_users`. -/
def DEVICE_TYPES : List String := ["iOS", "Android"]

/-- Model of `np.random.choice(options, p=...)`: pick an element using the head of the
tape. The weight vector shapes only the distribution, on which no claim
depends, so the draw is modelled as an index modulo the length. -/
def np_choice (options : List String) (t : Tape) : String × Tape :=
  (options.getD (t 0 % options.length) "", tl t)

/-- One user row of `UserGenerator.generate_users`, with the source's draw
order: `uuid4` from the entropy tape `u`; join-date offset
(`np.random.randint(0, days_between + 1)`), the 70% verification coin, age
group and device type from the seeded tape `t`; city then name from the
seeded Faker tape `fk`. `created_at` equals the join date's instant. -/
def generate_users_row (start_date days_between : Int) (t u fk : Tape) : UserRec :=
  { user_id := u 0,
    name := (tl fk) 0,
    location := fk 0,
    join_date := start_date + (randint 0 (days_between + 1) t).1,
    verified_neighborhood := decide ((randUnit (tl t)).1 < 70 / 100),
    created_at := start_date + (randint 0 (days_between + 1) t).1,
    age_group := (np_choice AGE_GROUPS (tl (tl t))).1,
    device_type := (np_choice DEVICE_TYPES (tl (tl (tl t)))).1,
    user_segment := Option.none }

/-- The `for _ in range(num_users)` loop of `generate_users`; a non-positive
count gives an empty range, hence an empty list. -/
def generate_users_loop : Nat → Int → Int → Tape → Tape → Tape → List UserRec
  | 0, _, _, _, _, _ => []
  | Nat.succ n, start_date, days_between, t, u, fk =>
      generate_users_row start_date days_between t u fk ::
        generate_users_loop n start_date days_between
          (tl (tl (tl (tl t)))) (tl u) (tl (tl fk))

/-- Model of `df.sort_values('join_date')`: stable ascending sort by join date. -/
def sort_by_join (l : List UserRec) : List UserRec :=
  l.mergeSort (fun a b => decide (a.join_date ≤ b.join_date))

/-- Model of `UserGenerator.generate_users`: defaults are the last 90 days
through now; generate `num_users` rows, then sort by join date (dates are day
numbers). The source's error paths are modelled with `Except`: for a
non-positive count the `for` loop runs zero times and `pd.DataFrame([])` has
no columns, so the unconditional `df.sort_values` on the join-date column
raises `KeyError` (unlike `events.py`, which guards its sort with a length
check); for a positive count over a reversed range,
`np.random.randint(0, days_between + 1)` raises `ValueError` inside the loop,
before the sort is reached. -/
def generate_users (num_users : Int) (start_date end_date : Option Int)
    (now : Int) (t u fk : Tape) : Except String (List UserRec) :=
  let s := start_date.getD (now - 90)
  let e := end_date.getD now
  let days_between := e - s
  if num_users.toNat = 0 then Except.error "KeyError: join_date"
  else if days_between < 0 then Except.error "ValueError: low >= high"
  else Except.ok (sort_by_join
    (generate_users_loop num_users.toNat s days_between t u fk))

theorem generate_users_loop_length (n : Nat) (s db : Int) :
    ∀ t u fk : Tape, (generate_users_loop n s db t u fk).length = n := by
  induction n with
  | zero => intro t u fk; rfl
  | succ n ih => intro t u fk; simp [generate_users_loop, ih]

theorem generate_users_loop_join_mem (n : Nat) (s db : Int) (hdb : 0 ≤ db) :
    ∀ t u fk : Tape, ∀ r ∈ generate_users_loop n s db t u fk,
      s ≤ r.join_date ∧ r.join_date ≤ s + db := by
  induction n with
  | zero => intro t u fk r hr; simp [generate_users_loop] at hr
  | succ n ih =>
    intro t u fk r hr
    rcases List.mem_cons.mp hr with h | h
    · subst h
      have hnn : (0 : Int) ≤ (t 0 : Int) % (db + 1 - 0) := Int.emod_nonneg _ (by omega)
      have hlt : (t 0 : Int) % (db + 1 - 0) < db + 1 - 0 := Int.emod_lt_of_pos _ (by omega)
      simp only [generate_users_row, randint]
      constructor <;> omega
    · exact ih _ _ _ r h

/-- C6 (the code at the failing input): a zero or negative count does not
yield an empty table — the unguarded `sort_values` on the column-less empty
frame raises `KeyError: join_date` — while for a positive count over a
non-reversed range `generate_users` returns exactly `N` rows, sorted
ascending by join date, every join date in `[start, end]` at integer-day
granularity with both endpoints attainable, the defaults being the last
90 days through now (and a positive count over a reversed range raises
`ValueError` from `np.random.randint`). -/
theorem generate_users_spec (num_users : Int) (sd ed : Option Int) (now : Int)
    (t u fk : Tape) :
    (num_users ≤ 0 →
      generate_users num_users sd ed now t u fk =
        Except.error "KeyError: join_date") ∧
    (0 < num_users → sd.getD (now - 90) ≤ ed.getD now →
      ∃ df : List UserRec,
        generate_users num_users sd ed now t u fk = Except.ok df ∧
        df.length = num_users.toNat ∧
        df.Pairwise (fun a b => a.join_date ≤ b.join_date) ∧
        (∀ r ∈ df, sd.getD (now - 90) ≤ r.join_date ∧ r.join_date ≤ ed.getD now)) ∧
    (0 < num_users → ed.getD now < sd.getD (now - 90) →
      generate_users num_users sd ed now t u fk =
        Except.error "ValueError: low >= high") ∧
    (sd = Option.none → ed = Option.none →
      sd.getD (now - 90) = now - 90 ∧ ed.getD now = now) ∧
    (∀ k : Int, 0 ≤ k → k ≤ ed.getD now - sd.getD (now - 90) →
      ∃ tape : Tape, ∀ df : List UserRec,
        generate_users 1 sd ed now tape u fk = Except.ok df →
        ∀ r ∈ df, r.join_date = sd.getD (now - 90) + k) := by
  refine ⟨?_, ?_, ?_, ?_, ?_⟩
  · intro h
    have h0 : num_users.toNat = 0 := by omega
    simp [generate_users, h0]
  · intro hpos hle
    have hne : ¬ num_users.toNat = 0 := by omega
    have hd : ¬ (ed.getD now - sd.getD (now - 90) < 0) := by omega
    refine ⟨sort_by_join (generate_users_loop num_users.toNat (sd.getD (now - 90))
        (ed.getD now - sd.getD (now - 90)) t u fk), ?_, ?_, ?_, ?_⟩
    · simp only [generate_users]
      rw [if_neg hne, if_neg hd]
    · simp [sort_by_join, generate_users_loop_length]
    · have hs := @List.sorted_mergeSort UserRec
        (fun a b => decide (a.join_date ≤ b.join_date))
        (fun a b c h1 h2 => by
          simp only [decide_eq_true_eq] at h1 h2 ⊢
          omega)
        (fun a b => by
          simp only [Bool.or_eq_true, decide_eq_true_eq]
          omega)
        (generate_users_loop num_users.toNat (sd.getD (now - 90))
          (ed.getD now - sd.getD (now - 90)) t u fk)
      simp only [sort_by_join]
      exact hs.imp (fun h => of_decide_eq_true h)
    · intro r hr
      simp only [sort_by_join, List.mem_mergeSort] at hr
      have := generate_users_loop_join_mem num_users.toNat (sd.getD (now - 90))
        (ed.getD now - sd.getD (now - 90)) (by omega) t u fk r hr
      omega
  · intro hpos hlt
    have hne : ¬ num_users.toNat = 0 := by omega
    have hd : ed.getD now - sd.getD (now - 90) < 0 := by omega
    simp only [generate_users]
    rw [if_neg hne, if_pos hd]
  · intro h1 h2
    subst h1
    subst h2
    simp
  · intro k hk0 hk1
    refine ⟨fun _ => k.toNat, ?_⟩
    intro df hdf r hr
    have hne : ¬ (1 : Int).toNat = 0 := by norm_num
    have hd : ¬ (ed.getD now - sd.getD (now - 90) < 0) := by omega
    simp only [generate_users] at hdf
    rw [if_neg hne, if_neg hd] at hdf
    simp only [Except.ok.injEq] at hdf
    subst hdf
    simp only [sort_by_join, List.mem_mergeSort, Int.toNat_one,
      generate_users_loop, List.mem_singleton, List.not_mem_nil, or_false] at hr
    subst hr
    simp only [generate_users_row, randint]
    have hcast : ((k.toNat : Nat) : Int) = k := Int.toNat_of_nonneg hk0
    rw [hcast]
    rw [Int.emod_eq_of_lt hk0 (by omega)]
    omega

/-- A convenient witness tape. -/
def zeros : Tape := fun _ => 0

/-- C6 witness: the code evaluated at the failing input `N = 0` (the sort
raises `KeyError`), and the positive-count properties applied at `N = 3`,
default date range, `now = 100`, with every hypothesis discharged at
concrete values. -/
theorem generate_users_spec_witness :
    generate_users 0 Option.none Option.none 100 zeros zeros zeros =
      Except.error "KeyError: join_date" ∧
    (∃ df : List UserRec,
      generate_users 3 Option.none Option.none 100 zeros zeros zeros =
        Except.ok df ∧
      df.length = 3 ∧
      df.Pairwise (fun a b => a.join_date ≤ b.join_date) ∧
      (∀ r ∈ df, (10 : Int) ≤ r.join_date ∧ r.join_date ≤ (100 : Int))) ∧
    (∃ tape : Tape, ∀ df : List UserRec,
      generate_users 1 Option.none Option.none 100 tape zeros zeros =
        Except.ok df →
      ∀ r ∈ df, r.join_date = (55 : Int)) := by
  refine ⟨?_, ?_, ?_⟩
  · exact (generate_users_spec 0 Option.none Option.none 100 zeros zeros zeros).1 le_rfl
  · have h := (generate_users_spec 3 Option.none Option.none 100 zeros zeros zeros).2.1
      (by norm_num) (by simp)
    simpa using h
  · have h := (generate_users_spec 1 Option.none Option.none 100 zeros zeros zeros).2.2.2.2
      45 (by norm_num) (by simp)
    simpa using h

/-- The `age_multiplier` dictionary of `generate_user_segments`, looked up
with `.get(age_group, 1.0)`. -/
def age_multiplier (age_group : String) : ℚ :=
  if age_group = "18-24" then 12 / 10
  else if age_group = "25-34" then 13 / 10
  else if age_group = "35-44" then 1
  else if age_group = "45-54" then 8 / 10
  else if age_group = "55+" then 6 / 10
  else 1

/-- Model of `engagement_score = (0.5 if verified_neighborhood else 0.3) * age_multiplier`. -/
def engagement_score (verified_neighborhood : Bool) (age_group : String) : ℚ :=
  (if verified_neighborhood then 50 / 100 else 30 / 100) * age_multiplier age_group

/-- The score classification of `generate_user_segments`. -/
def classify_segment (engagement_score : ℚ) : String :=
  if engagement_score > 70 / 100 then "high_engagement"
  else if engagement_score > 40 / 100 then "medium_engagement"
  else "low_engagement"

/-- The per-row body of `generate_user_segments`. -/
def apply_segment (row : UserRec) : UserRec :=
  { row with user_segment := some (classify_segment (engagement_score
      row.verified_neighborhood row.age_group)) }

/-- Model of `UserGenerator.generate_user_segments`: set the `user_segment` column of
every row from its `verified_neighborhood` flag and `age_group`. -/
def generate_user_segments (df : List UserRec) : List UserRec :=
  df.map apply_segment

/-- C5: `generate_user_segments` preserves the row count, alters no field
other than `user_segment`, sets `user_segment` as the stated pure function of
the verification flag and age group (base 0.5/0.3 times the age multiplier,
classified at the 0.7 and 0.4 thresholds), and is idempotent. -/
theorem generate_user_segments_spec (df : List UserRec) :
    (generate_user_segments df).length = df.length ∧
    generate_user_segments (generate_user_segments df) =
      generate_user_segments df ∧
    List.Forall₂ (fun row row2 =>
        row2.user_id = row.user_id ∧ row2.name = row.name ∧
        row2.location = row.location ∧ row2.join_date = row.join_date ∧
        row2.verified_neighborhood = row.verified_neighborhood ∧
        row2.created_at = row.created_at ∧ row2.age_group = row.age_group ∧
        row2.device_type = row.device_type ∧
        row2.user_segment = some (classify_segment
          (engagement_score row.verified_neighborhood row.age_group)))
      df (generate_user_segments df) ∧
    (∀ v a, engagement_score v a =
      (if v then (1 : ℚ) / 2 else 3 / 10) * age_multiplier a) ∧
    age_multiplier "18-24" = 12 / 10 ∧ age_multiplier "25-34" = 13 / 10 ∧
    age_multiplier "35-44" = 1 ∧ age_multiplier "45-54" = 8 / 10 ∧
    age_multiplier "55+" = 6 / 10 ∧
    (∀ q : ℚ, classify_segment q =
      if q > 7 / 10 then "high_engagement"
      else if q > 2 / 5 then "medium_engagement" else "low_engagement") := by
  refine ⟨?_, ?_, ?_, ?_, ?_, ?_, ?_, ?_, ?_, ?_⟩
  · simp [generate_user_segments]
  · induction df with
    | nil => rfl
    | cons r df ih =>
      have hr : apply_segment (apply_segment r) = apply_segment r := rfl
      simp only [generate_user_segments, List.map_cons] at ih ⊢
      rw [hr, ih]
  · induction df with
    | nil => exact List.Forall₂.nil
    | cons r df ih =>
      exact List.Forall₂.cons (by simp [apply_segment]) ih
  · intro v a
    cases v <;> norm_num [engagement_score]
  · simp [age_multiplier]
  · simp [age_multiplier]
  · simp [age_multiplier]
  · simp [age_multiplier]
  · simp [age_multiplier]
  · intro q
    unfold classify_segment
    norm_num

/-- C2 (the code at the failing input): two calls to `generate_users` with the
same seeded tape (same seed and parameters) but fresh `uuid4` OS entropy
return different user tables, because the `user_id` column is drawn from
`uuid.uuid4()`, which `np.random.seed` does not control. The same applies to
`event_id`, `session_id` and `item_id` in the event table. -/
theorem generate_users_not_seed_deterministic :
    generate_users 1 Option.none Option.none 0 zeros zeros zeros ≠
      generate_users 1 Option.none Option.none 0 zeros (fun _ => 1) zeros := by
  intro h
  have h1 : (generate_users 1 Option.none Option.none 0 zeros zeros zeros).map
      (List.map UserRec.user_id) = Except.ok [0] := by
    simp [generate_users, sort_by_join, generate_users_loop, generate_users_row, zeros,
      Except.map]
  have h2 : (generate_users 1 Option.none Option.none 0 zeros (fun _ => 1) zeros).map
      (List.map UserRec.user_id) = Except.ok [1] := by
    simp [generate_users, sort_by_join, generate_users_loop, generate_users_row, zeros,
      Except.map]
  rw [h] at h1
  rw [h1] at h2
  simp at h2

/-- The default `events_per_user_range` parameter of
`generate_events_for_users`: `(1, 5)`. -/
def default_events_per_user_range : Int × Int := (1, 5)

/-- The default `days_range` parameter of `generate_events_for_users`. -/
def default_days_range : Int := 30

/-- Model of `num_sessions = np.random.randint(*events_per_user_range)`: minimum
inclusive, maximum exclusive. -/
def num_sessions_draw (events_per_user_range : Int × Int) (t : Tape) : Nat :=
  ((randint events_per_user_range.1 events_per_user_range.2 t).1).toNat

/-- Model of `np.random.choice(range(24), p=hourly_distribution)`: the hour-of-day
draw. The evening-weighted distribution shapes only probabilities, on which
no claim depends, so the draw is modelled as the head modulo 24. -/
def hourly_choice (t : Tape) : Int := (t 0 : Int) % 24

/-- Model of `user.get('user_segment', 'medium_engagement')`: a missing segment field
falls back to `medium_engagement`. -/
def effective_segment (user : UserRec) : String :=
  user.user_segment.getD "medium_engagement"

/-- The per-user session loop of `generate_events_for_users`: each iteration
recomputes `days_since_join = min(days_range, today - join_date)` and skips
the session (consuming no draws) when it is non-positive; otherwise it draws
a day offset in `[0, days_since_join]`, an hour, a minute and a second, and
simulates the session. -/
def gen_sessions (user_id : Nat) (user_segment : String) (ab_group : ABGroup)
    (join_date days_range today : Int) :
    Nat → Tape → Tape → List Event × Tape × Tape
  | 0, t, u => ([], t, u)
  | Nat.succ n, t, u =>
    let days_since_join := min days_range (today - join_date)
    if days_since_join ≤ 0 then
      gen_sessions user_id user_segment ab_group join_date days_range today n t u
    else
      let random_day := (randint 0 (days_since_join + 1) t).1
      let t1 := (randint 0 (days_since_join + 1) t).2
      let hour := hourly_choice t1
      let t2 := tl t1
      let minute := (randint 0 60 t2).1
      let t3 := (randint 0 60 t2).2
      let second := (randint 0 60 t3).1
      let t4 := (randint 0 60 t3).2
      let session_start := (join_date + random_day) * 86400 + hour * 3600 +
        minute * 60 + second
      let res := generate_user_session user_id user_segment session_start ab_group t4 u
      let rest := gen_sessions user_id user_segment ab_group join_date days_range today
        n res.2.1 res.2.2
      (res.1 ++ rest.1, rest.2)

/-- The per-user loop of `generate_events_for_users`: effective segment,
A/B assignment from the identifier hash, session-count draw, then the
session loop. -/
def gen_users_events (pyhash : Nat → Int) (events_per_user_range : Int × Int)
    (days_range today : Int) :
    List UserRec → Tape → Tape → List Event × Tape × Tape
  | [], t, u => ([], t, u)
  | user :: rest, t, u =>
    let user_segment := effective_segment user
    let ab_group := assign_ab_group pyhash user.user_id
    let num_sessions := num_sessions_draw events_per_user_range t
    let t1 := tl t
    let res := gen_sessions user.user_id user_segment ab_group user.join_date
      days_range today num_sessions t1 u
    let more := gen_users_events pyhash events_per_user_range days_range today rest
      res.2.1 res.2.2
    (res.1 ++ more.1, more.2)

/-- Model of `EventGenerator.generate_events_for_users`: run the per-user loop over the
user table, then (only when at least one event exists) sort ascending by
timestamp; an empty result stays the empty table. -/
def generate_events_for_users (pyhash : Nat → Int) (users_df : List UserRec)
    (events_per_user_range : Int × Int) (days_range today : Int)
    (t u : Tape) : List Event :=
  let all_events := (gen_users_events pyhash events_per_user_range days_range today
    users_df t u).1
  if 0 < all_events.length then
    all_events.mergeSort (fun a b => decide (a.event_timestamp ≤ b.event_timestamp))
  else []

/-- C7 counterexample: the default sessions-per-user range of
`generate_events_for_users` is `(1, 5)`, not `(2, 10)`; the `(2, 10)` range is
what the driver script passes explicitly. -/
theorem default_sessions_range_is_one_five :
    default_events_per_user_range ≠ (2, 10) ∧
    default_events_per_user_range = (1, 5) := by
  constructor
  · decide
  · rfl

/-- C7 (amended): the session count drawn by `generate_events_for_users` is
uniform over the configured range with the minimum inclusive and the maximum
exclusive — it always lies in `[min, max)` and every value there is attained —
while the function's own default range is `(1, 5)`; the `2–10` range is what
the driver script passes. -/
theorem num_sessions_draw_range (r : Int × Int) (t : Tape)
    (h0 : 0 ≤ r.1) (h : r.1 < r.2) :
    r.1 ≤ (num_sessions_draw r t : Int) ∧ (num_sessions_draw r t : Int) < r.2 ∧
    (∀ k : Int, r.1 ≤ k → k < r.2 →
      ∃ tape : Tape, (num_sessions_draw r tape : Int) = k) ∧
    default_events_per_user_range = (1, 5) := by
  have hb : ∀ tape : Tape, r.1 ≤ (randint r.1 r.2 tape).1 ∧ (randint r.1 r.2 tape).1 < r.2 := by
    intro tape
    have hnn : (0 : Int) ≤ (tape 0 : Int) % (r.2 - r.1) := Int.emod_nonneg _ (by omega)
    have hlt : (tape 0 : Int) % (r.2 - r.1) < r.2 - r.1 := Int.emod_lt_of_pos _ (by omega)
    simp only [randint]
    omega
  have hcast : ∀ tape : Tape, (num_sessions_draw r tape : Int) = (randint r.1 r.2 tape).1 := by
    intro tape
    exact Int.toNat_of_nonneg (by have := (hb tape).1; omega)
  refine ⟨?_, ?_, ?_, rfl⟩
  · rw [hcast t]; exact (hb t).1
  · rw [hcast t]; exact (hb t).2
  · intro k hk1 hk2
    refine ⟨fun _ => (k - r.1).toNat, ?_⟩
    rw [hcast _]
    simp only [randint]
    have : (((k - r.1).toNat : Nat) : Int) = k - r.1 := Int.toNat_of_nonneg (by omega)
    rw [this, Int.emod_eq_of_lt (by omega) (by omega)]
    omega

/-- C7 witness: the range property applied at the driver's range `(2, 10)`
and the all-zeros tape. -/
theorem num_sessions_draw_range_witness :
    (2 : Int) ≤ (num_sessions_draw (2, 10) zeros : Int) ∧
    (num_sessions_draw (2, 10) zeros : Int) < 10 ∧
    (∀ k : Int, 2 ≤ k → k < 10 →
      ∃ tape : Tape, (num_sessions_draw (2, 10) tape : Int) = k) ∧
    default_events_per_user_range = (1, 5) :=
  num_sessions_draw_range (2, 10) zeros (by norm_num) (by norm_num)

/-- If every iteration's `days_since_join` guard fails, the session loop
yields no events and leaves both tapes untouched. -/
theorem gen_sessions_skipped (user_id : Nat) (seg : String) (g : ABGroup)
    (join_date days_range today : Int)
    (h : min days_range (today - join_date) ≤ 0) :
    ∀ (n : Nat) (t u : Tape),
      gen_sessions user_id seg g join_date days_range today n t u = ([], t, u) := by
  intro n
  induction n with
  | zero => intro t u; rfl
  | succ n ih =>
    intro t u
    simp only [gen_sessions]
    rw [if_pos h]
    exact ih t u

/-- C9: `generate_events_for_users` has no failure path on degenerate input:
an empty user table yields an empty event table, and so does any table whose
every user has `days_since_join = min(days_range, today - join_date) ≤ 0`
(for instance a user who joined today), each such user producing zero
sessions. -/
theorem generate_events_for_users_degenerate (pyhash : Nat → Int)
    (users_df : List UserRec) (r : Int × Int) (days_range today : Int)
    (t u : Tape) :
    generate_events_for_users pyhash [] r days_range today t u = [] ∧
    ((∀ user ∈ users_df, min days_range (today - user.join_date) ≤ 0) →
      generate_events_for_users pyhash users_df r days_range today t u = []) := by
  constructor
  · rfl
  · intro h
    have key : ∀ (df : List UserRec),
        (∀ user ∈ df, min days_range (today - user.join_date) ≤ 0) →
        ∀ t u : Tape,
          (gen_users_events pyhash r days_range today df t u).1 = [] := by
      intro df
      induction df with
      | nil => intro _ t u; rfl
      | cons user rest ih =>
        intro hall t u
        simp only [gen_users_events]
        rw [gen_sessions_skipped _ _ _ _ _ _ (hall user (List.mem_cons_self _ _))]
        simp [ih (fun x hx => hall x (List.mem_cons_of_mem _ hx))]
    simp [generate_events_for_users, key users_df h t u]

/-- A concrete user row used by witnesses; its join date is "today" (day 0)
and its segment field is absent. -/
def sample_user : UserRec :=
  { user_id := 0, name := 0, location := 0, join_date := 0,
    verified_neighborhood := true, created_at := 0, age_group := "25-34",
    device_type := "iOS", user_segment := Option.none }

/-- C9 witness: a user whose join date is today (with the driver's
`days_range = 30`) produces zero sessions and an empty event table. -/
theorem generate_events_for_users_degenerate_witness :
    generate_events_for_users (fun _ => 0) [sample_user] (1, 5) 30 0 zeros zeros = [] := by
  have h := generate_events_for_users_degenerate (fun _ => 0) [sample_user]
    (1, 5) 30 0 zeros zeros
  refine h.2 ?_
  intro x hx
  rw [List.mem_singleton] at hx
  subst hx
  simp [sample_user]

/-- C10: the simulation is total over arbitrary segment inputs — a user row
with no segment field is treated as `medium_engagement`, and any segment
string outside the three known ones gets multiplier `1.0`, making the whole
session simulation behave exactly as for `medium_engagement`. -/
theorem segment_fallback_total (user : UserRec) (s : String) (user_id : Nat)
    (session_start : Int) (g : ABGroup) (t u : Tape)
    (hn : user.user_segment = Option.none)
    (hs1 : s ≠ "high_engagement") (hs2 : s ≠ "medium_engagement")
    (hs3 : s ≠ "low_engagement") :
    effective_segment user = "medium_engagement" ∧
    segment_multiplier s = 1 ∧
    generate_user_session user_id s session_start g t u =
      generate_user_session user_id "medium_engagement" session_start g t u := by
  refine ⟨?_, ?_, ?_⟩
  · simp [effective_segment, hn]
  · simp [segment_multiplier, hs1, hs2, hs3]
  · have hc : ∀ st, composed_rate st s g = composed_rate st "medium_engagement" g := by
      intro st
      simp [composed_rate, segment_multiplier, hs1, hs2, hs3]
    simp only [generate_user_session, hc]

/-- C10 witness: the fallback behaviour at the concrete unknown segment
string `"casual"` and a user row with no segment field. -/
theorem segment_fallback_total_witness :
    effective_segment sample_user = "medium_engagement" ∧
    segment_multiplier "casual" = 1 ∧
    generate_user_session 0 "casual" 0 ABGroup.control zeros zeros =
      generate_user_session 0 "medium_engagement" 0 ABGroup.control zeros zeros :=
  segment_fallback_total sample_user "casual" 0 0 ABGroup.control zeros zeros
    rfl (by simp) (by simp) (by simp)
